import Mathlib

/-!
Shallow embedding of `src/uniaiv1.py` (a Flask webhook bot: tenant
resolution from Airtable, template / knowledge-base / Claude-fallback reply
pipeline, WhatsApp delivery via Wassenger, history and sales-lead logging).

External I/O is modelled by an explicit environment `Env` holding the
Airtable tables (in provider-return order) and the textual contents of the
two language-model responses (the tool router and the fallback reply), and
by a trace of side-effect events (`Event`).  Python strings are lists of
characters; Python truthiness, `str.lower`, `str.strip`, `str.lstrip("+")`,
`in`, `split('"')` and `dict.get` are modelled by the `py*` helpers below.

The source file is truncated: it ends mid-statement at line 303 inside the
`InfoSearch` tool branch, and everything after (the remaining tool branches
and the fall-through for payloads that are not new inbound messages) is
missing.  Runs routed to tools other than `Default` are therefore modelled
opaquely (a sentinel response after the router call), and the
non-message-payload fall-through is modelled from the spec (see `webhook`).
No theorem below depends on the opaque tool branches.
-/

/-- Python lowercasing of one character, modelled by core `Char.toLower`,
which lowers exactly the basic Latin letters A-Z (Python's `str.lower`
additionally lowers other cased letters, which none of the strings relevant
to this code contain; CJK characters such as those of "预约" are fixed
points of both). -/
def pyLowerChar (c : Char) : Char := Char.toLower c

/-- Python `s.lower()`. -/
def pyLower (s : String) : String := ⟨s.data.map pyLowerChar⟩

/-- Python `s.strip()` on the character list: drop leading and trailing
whitespace. -/
def stripChars (l : List Char) : List Char :=
  (((l.dropWhile Char.isWhitespace).reverse).dropWhile Char.isWhitespace).reverse

/-- Python `s.strip()`. -/
def pyStrip (s : String) : String := ⟨stripChars s.data⟩

/-- Python `s.lstrip("+")`: remove every leading `'+'`. -/
def pyLstripPlus (s : String) : String := ⟨s.data.dropWhile (· == '+')⟩

/-- Does `needle` occur at the head of `hay`? (helper for Python `in`). -/
def matchHead : List Char → List Char → Bool
  | [], _ => true
  | _ :: _, [] => false
  | n :: ns, h :: hs => n == h && matchHead ns hs

/-- Does `needle` occur contiguously anywhere in `hay`? (Python substring
`in`; the empty needle matches everything, as in Python). -/
def charsContains : List Char → List Char → Bool
  | [], needle => matchHead needle []
  | a :: t, needle => matchHead needle (a :: t) || charsContains t needle

/-- Python `needle in hay` for strings. -/
def pyIn (needle hay : String) : Bool := charsContains hay.data needle.data

/-- Python `s.split(sep)` for a one-character separator. -/
def splitOnChar (sep : Char) : List Char → List (List Char)
  | [] => [[]]
  | c :: rest =>
    match splitOnChar sep rest with
    | [] => [[]]
    | g :: gs => if c == sep then [] :: g :: gs else (c :: g) :: gs

/-- Python truthiness of an optional string (`None` and `""` are falsy). -/
def pyTruthy : Option String → Bool
  | none => false
  | some s => s != ""

/-- Python `a or b` on optional strings: `a` when truthy, else `b`. -/
def pyOrOpt (a b : Option String) : Option String :=
  match a with
  | some s => if s != "" then some s else b
  | none => b

/-- Python `d.get(k)` on a string-keyed dict, in insertion order. -/
def pyDictGet (k : String) (d : List (String × String)) : Option String :=
  (d.find? (·.1 == k)).map (·.2)

/-- Number of double-quote characters in a string. -/
def quoteCount (s : String) : Nat := s.data.count '"'

/-- Python exception raised by the embedded code. -/
inductive PyErr where
  | valueError (msg : String)
  | keyError
deriving DecidableEq

deriving instance DecidableEq for Except

/-- One row of the `WhatsappConfig` Airtable table (its fields dict):
`WhatsappNumber`, `WA_ID`, the `BusinessID (from Business)` lookup list,
`WASSENGER_API_KEY`, and the optional `Role`. -/
structure ConfigRow where
  whatsappNumber : String
  wa_id : String
  businessIDs : List String
  wassengerApiKey : String
  role : Option String
deriving DecidableEq

/-- The dict returned by `fetch_service_config`. -/
structure ServiceConfig where
  wa_id : String
  businessID : String
  wassengerApiKey : String
  role : String
deriving DecidableEq

/-- One row of the `BusinessConfig` table. -/
structure BusinessRow where
  businessID : String
  defaultLanguage : Option String
  claudePrompt : Option String
  claudeModel : Option String
deriving DecidableEq

/-- The dict returned by `fetch_business_settings`. -/
structure BusinessSettings where
  defaultLanguage : String
  claudePrompt : String
  claudeModel : String
deriving DecidableEq

/-- The fields dict of one `WhatsAppReplyTemplate` row.  The code reads only
`TemplateBody`; `ImageURL` and a trigger column may be present in the row
but are never consulted by `find_template`. -/
structure TemplateFields where
  templateBody : Option String
  imageURL : Option String
  trigger : Option String
deriving DecidableEq

/-- One `WhatsAppReplyTemplate` row with its scoping keys
(`BusinessID (from Business)` and `WhatsAppConfig`). -/
structure TemplateRow where
  businessID : String
  whatsAppConfig : String
  fields : TemplateFields
deriving DecidableEq

/-- One `KnowledgeBase` row: `Title`, the `RoleScripts` dict, the optional
`DefaultScript`, and the `ImageURL` attachment list (`[]` models both an
absent and an empty attachment list, which Python treats identically:
`flds.get("ImageURL")` is falsy in both cases). -/
structure KnowledgeRow where
  businessID : String
  title : Option String
  roleScripts : Option (List (String × String))
  defaultScript : Option String
  imageURLs : List String
deriving DecidableEq

/-- Side-effect events emitted by one webhook run, in execution order:
`claudeCall` for each `call_claude` HTTP round trip (the tool router and
the generative fallback both go through `call_claude`), `sendText` /
`sendImage` for Wassenger deliveries, `recordHistory` / `recordSales` for
Airtable appends. -/
inductive Event where
  | claudeCall (model : String)
  | sendText (phone body : String)
  | sendImage (phone url : String)
  | recordHistory (biz wa phone step hist : String)
  | recordSales (biz wa phone name svc status : String)
deriving DecidableEq

/-- An HTTP response `(json status, code)` from the handler. -/
structure Response where
  status : String
  code : Nat
deriving DecidableEq

/-- The external world of one request: the four Airtable tables, each in
provider-return order, plus the textual contents of the router model
response and of the fallback model response. -/
structure Env where
  configTable : List ConfigRow
  businessTable : List BusinessRow
  templateTable : List TemplateRow
  knowledgeTable : List KnowledgeRow
  routerContent : String
  claudeContent : String

/-- The `data` object of a provider `message:in:new` payload
(`meta.isGroup`, `toNumber`, `fromNumber`, `body`). -/
structure MessageData where
  isGroup : Bool
  toNumber : String
  fromNumber : String
  body : String
deriving DecidableEq

/-- An inbound webhook JSON payload, reduced to the keys the handler reads:
`object`, `event`, and the `data` object. -/
structure Payload where
  object? : Option String
  event? : Option String
  data? : Option MessageData
deriving DecidableEq

/-- A well-shaped provider message payload. -/
def msgPayload (d : MessageData) : Payload :=
  ⟨some "message", some "message:in:new", some d⟩

/-- Embeds `detect_language` (src/uniaiv1.py:62-63): "zh" when the text
contains a CJK ideograph in U+4E00..U+9FFF, else "en".  The webhook computes
it only for logging. -/
def detect_language (text : String) : String :=
  if text.data.any (fun c => 0x4e00 ≤ c.toNat && c.toNat ≤ 0x9fff) then "zh" else "en"

/-- The hard-coded router model name (src/uniaiv1.py:99). -/
def routerModel : String := "claude-opus-4-20250514"

/-- Embeds the parsing half of `select_tool` (src/uniaiv1.py:101-107): the
router response content is stripped, split on `'"'`, and element 1 is the
tool id; an `IndexError` (no quote at all) is caught and yields "Default".
The `call_claude` round trip the function performs is recorded as a
`claudeCall routerModel` event at the call site in `webhook`. -/
def select_tool (content : String) : String :=
  match splitOnChar '"' (pyStrip content).data with
  | _ :: p :: _ => ⟨p⟩
  | _ => "Default"

/-- Embeds `fetch_service_config` (src/uniaiv1.py:109-128): exact-match
filter on `WhatsappNumber`, `ValueError` when no record matches or the
matched row's `BusinessID` lookup list is empty, else the config dict
(with `Role` defaulting to `""`). -/
def fetch_service_config (table : List ConfigRow) (svc : String) :
    Except PyErr ServiceConfig :=
  match table.filter (·.whatsappNumber == svc) with
  | [] => Except.error (PyErr.valueError ("No WhatsappConfig for " ++ svc))
  | f :: _ =>
    match f.businessIDs with
    | [] => Except.error (PyErr.valueError "Config row missing BusinessID lookup")
    | biz :: _ => Except.ok ⟨f.wa_id, biz, f.wassengerApiKey, f.role.getD ""⟩

/-- Embeds `fetch_business_settings` (src/uniaiv1.py:130-145): exact-match
filter on `BusinessID`, `ValueError` when empty, defaults "en" / "" /
"claude-opus-4-20250514". -/
def fetch_business_settings (table : List BusinessRow) (biz : String) :
    Except PyErr BusinessSettings :=
  match table.filter (·.businessID == biz) with
  | [] => Except.error (PyErr.valueError ("No BusinessConfig for " ++ biz))
  | f :: _ =>
    Except.ok ⟨f.defaultLanguage.getD "en", f.claudePrompt.getD "",
      f.claudeModel.getD "claude-opus-4-20250514"⟩

/-- Embeds `find_template` (src/uniaiv1.py:147-161): fetch the rows scoped
to `(BusinessID, WhatsAppConfig)` and return the fields of the first one
(the `for rec in records: return rec["fields"]` loop), `none` when there is
no row.  The message body is not an argument and no trigger matching is
performed. -/
def find_template (rows : List TemplateRow) (biz wa : String) :
    Option TemplateFields :=
  ((rows.filter (fun r => r.businessID == biz && r.whatsAppConfig == wa)).head?).map
    (·.fields)

/-- The scan loop of `find_knowledge` (src/uniaiv1.py:170-176): return, for
the first row whose lowered `Title` (absent modelled as `""`, which is a
substring of everything, as in Python) occurs in the lowered message, the
pair `(RoleScripts.get(role) or DefaultScript, first image url)` — even
when that script is `None` or empty — else `(None, None)`. -/
def knowledgeScan (msg role : String) : List KnowledgeRow → Option String × Option String
  | [] => (none, none)
  | r :: rest =>
    if pyIn (pyLower (r.title.getD "")) (pyLower msg) then
      (pyOrOpt (pyDictGet role (r.roleScripts.getD [])) r.defaultScript,
       r.imageURLs.head?)
    else knowledgeScan msg role rest

/-- Embeds `find_knowledge` (src/uniaiv1.py:163-176): filter the
`KnowledgeBase` rows by `BusinessID`, then scan. -/
def find_knowledge (rows : List KnowledgeRow) (biz msg role : String) :
    Option String × Option String :=
  knowledgeScan msg role (rows.filter (·.businessID == biz))

/-- The booking-intent test of src/uniaiv1.py:293:
`"booking" in reply.lower() or "预约" in reply`. -/
def bookingDetected (reply : String) : Bool :=
  pyIn "booking" (pyLower reply) || pyIn "预约" reply

/-- Embeds the `tool == "Default"` branch of `webhook`
(src/uniaiv1.py:262-295): template stage (text only, no image), then
knowledge stage (image before text when present), then the Claude fallback
with history/sales recording.  `cusRaw` is the unmodified `fromNumber`
(used for sends), `cus` the `lstrip("+")`-ed one (used for records),
`msg` the stripped body. -/
def defaultBranch (env : Env) (scfg : ServiceConfig) (bcfg : BusinessSettings)
    (cusRaw cus msg : String) : List Event × Except PyErr Response :=
  match find_template env.templateTable scfg.businessID scfg.wa_id with
  | some tpl =>
    ([Event.sendText cusRaw (tpl.templateBody.getD ""),
      Event.recordHistory scfg.businessID scfg.wa_id cus "template"
        ("C:" ++ msg ++ "|B:" ++ tpl.templateBody.getD "")],
     Except.ok ⟨"template_sent", 200⟩)
  | none =>
    if pyTruthy (find_knowledge env.knowledgeTable scfg.businessID msg scfg.role).1 then
      ((match (find_knowledge env.knowledgeTable scfg.businessID msg scfg.role).2 with
        | some u => [Event.sendImage cusRaw u]
        | none => []) ++
       [Event.sendText cusRaw
          ((find_knowledge env.knowledgeTable scfg.businessID msg scfg.role).1.getD ""),
        Event.recordHistory scfg.businessID scfg.wa_id cus "knowledge"
          ("C:" ++ msg ++ "|B:" ++
           (find_knowledge env.knowledgeTable scfg.businessID msg scfg.role).1.getD "")],
       Except.ok ⟨"knowledge_sent", 200⟩)
    else
      ([Event.claudeCall bcfg.claudeModel,
        Event.sendText cusRaw (pyStrip env.claudeContent),
        Event.recordHistory scfg.businessID scfg.wa_id cus "fallback"
          ("C:" ++ msg ++ "|B:" ++ pyStrip env.claudeContent)] ++
       (if bookingDetected (pyStrip env.claudeContent) then
          [Event.recordSales scfg.businessID scfg.wa_id cus "Unknown" "TBD" "Pending"]
        else []),
       Except.ok ⟨"ok", 200⟩)

/-- Prepend the router `call_claude` event (src/uniaiv1.py:259) to the
selected branch's run. -/
def withRouter (r : List Event × Except PyErr Response) :
    List Event × Except PyErr Response :=
  (Event.claudeCall routerModel :: r.1, r.2)

/-- Dispatch on the selected tool (src/uniaiv1.py:262, 297).  The source
file is cut off mid-statement inside the `InfoSearch` branch (line 303) and
every later branch is missing entirely, so all non-`Default` tools are
modelled opaquely by a sentinel response with no further events; no theorem
in this file depends on that sentinel. -/
def toolDispatch (env : Env) (scfg : ServiceConfig) (bcfg : BusinessSettings)
    (cusRaw cus msg tool : String) : List Event × Except PyErr Response :=
  if tool = "Default" then defaultBranch env scfg bcfg cusRaw cus msg
  else ([], Except.ok ⟨"unmodelled_tool_branch", 200⟩)

/-- Tenant resolution as performed by the webhook (src/uniaiv1.py:244,
251-252): normalize the service number with `lstrip("+")`, fetch the
service config, then the business settings; either `ValueError`
propagates. -/
def resolveTenant (env : Env) (d : MessageData) :
    Except PyErr (ServiceConfig × BusinessSettings) :=
  match fetch_service_config env.configTable (pyLstripPlus d.toNumber) with
  | Except.error e => Except.error e
  | Except.ok scfg =>
    match fetch_business_settings env.businessTable scfg.businessID with
    | Except.error e => Except.error e
    | Except.ok bcfg => Except.ok (scfg, bcfg)

/-- The handler body for one well-shaped inbound message
(src/uniaiv1.py:240-295): group check, tenant resolution (both fetches,
errors propagating with no side effects), router call, tool dispatch. -/
def handleMessage (env : Env) (d : MessageData) :
    List Event × Except PyErr Response :=
  if d.isGroup then ([], Except.ok ⟨"ignored_group", 200⟩)
  else
    match resolveTenant env d with
    | Except.error e => ([], Except.error e)
    | Except.ok (scfg, bcfg) =>
      withRouter (toolDispatch env scfg bcfg d.fromNumber
        (pyLstripPlus d.fromNumber) (pyStrip d.body)
        (select_tool env.routerContent))

/-- Embeds the `webhook` handler (src/uniaiv1.py:228-295), returning the
event trace together with the HTTP response or the propagated exception.
The final `else` (a POST whose JSON is not a `message` / `message:in:new`
payload) lies past the truncation point of the source file; it is
Modelled from the spec: "pipeline must short-circuit to
`Ignored("unrecognized_payload")` without raising". -/
def webhook (env : Env) (method : String) (payload : Payload) :
    List Event × Except PyErr Response :=
  if method = "GET" then ([], Except.ok ⟨"OK", 200⟩)
  else
    if payload.object? = some "message" ∧ payload.event? = some "message:in:new" then
      match payload.data? with
      | none => ([], Except.error PyErr.keyError)
      | some d => handleMessage env d
    else ([], Except.ok ⟨"unrecognized_payload", 200⟩)

/-- Number of `call_claude` round trips in a trace. -/
def claudeCalls (t : List Event) : Nat :=
  t.countP (fun e => match e with | Event.claudeCall _ => true | _ => false)

/-- Is this event an image delivery? -/
def isImageEvent : Event → Bool
  | Event.sendImage _ _ => true
  | _ => false

/-- Is this event a text delivery? -/
def isTextEvent : Event → Bool
  | Event.sendText _ _ => true
  | _ => false

/-- Does the first image send occur strictly before the first text send? -/
def imageThenText (t : List Event) : Bool :=
  match t.findIdx? isImageEvent, t.findIdx? isTextEvent with
  | some i, some j => decide (i < j)
  | _, _ => false

/-- Modelled from the spec's words, for comparison with `find_template`
(section 4.2): "iterate in provider-return order; return the first entry
whose trigger token is a non-empty case-insensitive substring of
`message.body`; if no trigger token is configured on a row, that row is
skipped (never treated as a wildcard match)". -/
def find_template_spec (rows : List TemplateRow) (biz wa msg : String) :
    Option TemplateFields :=
  (((rows.filter (fun r => r.businessID == biz && r.whatsAppConfig == wa)).filter
      (fun r =>
        match r.fields.trigger with
        | some t => t != "" && pyIn (pyLower t) (pyLower msg)
        | none => false)).head?).map (·.fields)

/-- Modelled from the spec's words (section 4.3), scan loop: "return the
first entry whose `title` is a non-empty case-insensitive substring of
`message.body`; compute reply as `roleScripts[tenant.role] or
defaultScript`; if both are absent/empty, treat as non-match and continue
scanning". -/
def knowledgeScanSpec (msg role : String) :
    List KnowledgeRow → Option String × Option String
  | [] => (none, none)
  | r :: rest =>
    if (r.title.getD "") != "" &&
        pyIn (pyLower (r.title.getD "")) (pyLower msg) &&
        pyTruthy (pyOrOpt (pyDictGet role (r.roleScripts.getD [])) r.defaultScript) then
      (pyOrOpt (pyDictGet role (r.roleScripts.getD [])) r.defaultScript,
       r.imageURLs.head?)
    else knowledgeScanSpec msg role rest

/-- Modelled from the spec's words, for comparison with `find_knowledge`. -/
def find_knowledge_spec (rows : List KnowledgeRow) (biz msg role : String) :
    Option String × Option String :=
  knowledgeScanSpec msg role (rows.filter (·.businessID == biz))

/-- Modelled from the spec's words, for comparison with `pyLstripPlus`
(section 4.1): "strip any leading `+` and non-digit prefix characters
before lookup". -/
def normalizeServiceNumber_spec (s : String) : String :=
  ⟨s.data.dropWhile (fun c => !c.isDigit)⟩

/-- The claim-side booking detector of C6: the reply contains a configured
keyword ("booking" or "预约") case-insensitively. -/
def keywordHit (reply : String) : Bool :=
  pyIn "booking" (pyLower reply) || pyIn "预约" (pyLower reply)

/-- Does a knowledge row's (possibly absent) title occur case-insensitively
in the message, the way `find_knowledge`'s loop tests it? -/
def titleMatches (r : KnowledgeRow) (msg : String) : Bool :=
  pyIn (pyLower (r.title.getD "")) (pyLower msg)

/-- Claim C1 as stated, at one input: for a non-group message whose tenant
resolves, the stages run template → knowledge → generative fallback with
the first match terminal, and no `call_claude` round trip happens before
both deterministic stages have failed (so none at all when either stage
matches, and exactly the one fallback call when both fail). -/
def claimC1at (env : Env) (d : MessageData) : Prop :=
  ∀ scfg bcfg, resolveTenant env d = Except.ok (scfg, bcfg) → d.isGroup = false →
    ((find_template env.templateTable scfg.businessID scfg.wa_id).isSome = true →
      (webhook env "POST" (msgPayload d)).2 = Except.ok ⟨"template_sent", 200⟩)
    ∧ (find_template env.templateTable scfg.businessID scfg.wa_id = none →
      pyTruthy (find_knowledge env.knowledgeTable scfg.businessID
        (pyStrip d.body) scfg.role).1 = true →
      (webhook env "POST" (msgPayload d)).2 = Except.ok ⟨"knowledge_sent", 200⟩)
    ∧ (find_template env.templateTable scfg.businessID scfg.wa_id = none →
      pyTruthy (find_knowledge env.knowledgeTable scfg.businessID
        (pyStrip d.body) scfg.role).1 = false →
      (webhook env "POST" (msgPayload d)).2 = Except.ok ⟨"ok", 200⟩)
    ∧ ((find_template env.templateTable scfg.businessID scfg.wa_id).isSome = true ∨
        pyTruthy (find_knowledge env.knowledgeTable scfg.businessID
          (pyStrip d.body) scfg.role).1 = true →
      claudeCalls (webhook env "POST" (msgPayload d)).1 = 0)
    ∧ (find_template env.templateTable scfg.businessID scfg.wa_id = none →
      pyTruthy (find_knowledge env.knowledgeTable scfg.businessID
        (pyStrip d.body) scfg.role).1 = false →
      claudeCalls (webhook env "POST" (msgPayload d)).1 = 1)

/-- Claim C2 as stated, at one input: the template matcher agrees with the
spec's trigger-substring matcher. -/
def claimC2at (rows : List TemplateRow) (biz wa msg : String) : Prop :=
  find_template rows biz wa = find_template_spec rows biz wa msg

/-- Claim C3 as stated, at one input: the knowledge matcher agrees with the
spec's non-empty-title, continue-on-absent-script matcher. -/
def claimC3at (rows : List KnowledgeRow) (biz msg role : String) : Prop :=
  find_knowledge rows biz msg role = find_knowledge_spec rows biz msg role

/-- Claim C7 as stated, at one input: whenever the matched stage's entry
carries an image, the image send precedes the text send in the trace. -/
def claimC7at (env : Env) (d : MessageData) : Prop :=
  ∀ scfg bcfg, resolveTenant env d = Except.ok (scfg, bcfg) → d.isGroup = false →
    (∀ f, find_template env.templateTable scfg.businessID scfg.wa_id = some f →
      f.imageURL.isSome = true →
      imageThenText (webhook env "POST" (msgPayload d)).1 = true)
    ∧ (find_template env.templateTable scfg.businessID scfg.wa_id = none →
      pyTruthy (find_knowledge env.knowledgeTable scfg.businessID
        (pyStrip d.body) scfg.role).1 = true →
      (find_knowledge env.knowledgeTable scfg.businessID
        (pyStrip d.body) scfg.role).2.isSome = true →
      imageThenText (webhook env "POST" (msgPayload d)).1 = true)

/-- Claim C8 as stated, at one raw service number: the code's normalization
(`lstrip("+")`) agrees with the spec's strip-all-leading-non-digits rule. -/
def claimC8at (s : String) : Prop :=
  pyLstripPlus s = normalizeServiceNumber_spec s

/-- Claim C10 as stated, at one router response text: fewer than two double
quotes means `select_tool` falls back to "Default". -/
def claimC10at (content : String) : Prop :=
  quoteCount content < 2 → select_tool content = "Default"

/-- A POST of a well-shaped message payload runs the message handler. -/
theorem webhook_post_msg (env : Env) (d : MessageData) :
    webhook env "POST" (msgPayload d) = handleMessage env d := rfl

/-- Splitting a successful tenant resolution into its two fetches. -/
theorem resolveTenant_ok {env : Env} {d : MessageData} {scfg : ServiceConfig}
    {bcfg : BusinessSettings}
    (h : resolveTenant env d = Except.ok (scfg, bcfg)) :
    fetch_service_config env.configTable (pyLstripPlus d.toNumber) = Except.ok scfg ∧
    fetch_business_settings env.businessTable scfg.businessID = Except.ok bcfg := by
  unfold resolveTenant at h
  split at h
  · exact absurd h (by simp)
  · rename_i s hfs
    split at h
    · exact absurd h (by simp)
    · rename_i b hfb
      simp only [Except.ok.injEq, Prod.mk.injEq] at h
      obtain ⟨rfl, rfl⟩ := h
      exact ⟨hfs, hfb⟩

/-- Group messages short-circuit with an empty trace. -/
theorem handleMessage_group {env : Env} {d : MessageData} (hg : d.isGroup = true) :
    handleMessage env d = ([], Except.ok ⟨"ignored_group", 200⟩) := by
  unfold handleMessage
  rw [hg, if_pos rfl]

/-- A failed tenant resolution propagates with an empty trace. -/
theorem handleMessage_resolveFail {env : Env} {d : MessageData} {e : PyErr}
    (hg : d.isGroup = false) (hres : resolveTenant env d = Except.error e) :
    handleMessage env d = ([], Except.error e) := by
  unfold handleMessage
  rw [hg, if_neg (by decide), hres]

/-- A resolved non-group message proceeds to the router and tool dispatch. -/
theorem handleMessage_resolved {env : Env} {d : MessageData} {scfg : ServiceConfig}
    {bcfg : BusinessSettings}
    (hg : d.isGroup = false) (hres : resolveTenant env d = Except.ok (scfg, bcfg)) :
    handleMessage env d =
      withRouter (toolDispatch env scfg bcfg d.fromNumber (pyLstripPlus d.fromNumber)
        (pyStrip d.body) (select_tool env.routerContent)) := by
  unfold handleMessage
  rw [hg, if_neg (by decide), hres]

/-- The "Default" tool runs the canned-response pipeline. -/
theorem toolDispatch_default (env : Env) (scfg : ServiceConfig)
    (bcfg : BusinessSettings) (cusRaw cus msg : String) :
    toolDispatch env scfg bcfg cusRaw cus msg "Default" =
      defaultBranch env scfg bcfg cusRaw cus msg := by
  unfold toolDispatch
  rw [if_pos rfl]

/-- The template stage of the Default branch: first template row wins,
text-only send. -/
theorem defaultBranch_template {env : Env} {scfg : ServiceConfig}
    {bcfg : BusinessSettings} {cusRaw cus msg : String} {tpl : TemplateFields}
    (h : find_template env.templateTable scfg.businessID scfg.wa_id = some tpl) :
    defaultBranch env scfg bcfg cusRaw cus msg =
      ([Event.sendText cusRaw (tpl.templateBody.getD ""),
        Event.recordHistory scfg.businessID scfg.wa_id cus "template"
          ("C:" ++ msg ++ "|B:" ++ tpl.templateBody.getD "")],
       Except.ok ⟨"template_sent", 200⟩) := by
  unfold defaultBranch
  rw [h]

/-- The knowledge stage of the Default branch: optional image first, then
text. -/
theorem defaultBranch_knowledge {env : Env} {scfg : ServiceConfig}
    {bcfg : BusinessSettings} {cusRaw cus msg : String}
    (hn : find_template env.templateTable scfg.businessID scfg.wa_id = none)
    (ht : pyTruthy (find_knowledge env.knowledgeTable scfg.businessID msg scfg.role).1 = true) :
    defaultBranch env scfg bcfg cusRaw cus msg =
      ((match (find_knowledge env.knowledgeTable scfg.businessID msg scfg.role).2 with
        | some u => [Event.sendImage cusRaw u]
        | none => []) ++
       [Event.sendText cusRaw
          ((find_knowledge env.knowledgeTable scfg.businessID msg scfg.role).1.getD ""),
        Event.recordHistory scfg.businessID scfg.wa_id cus "knowledge"
          ("C:" ++ msg ++ "|B:" ++
           (find_knowledge env.knowledgeTable scfg.businessID msg scfg.role).1.getD "")],
       Except.ok ⟨"knowledge_sent", 200⟩) := by
  unfold defaultBranch
  rw [hn, ht, if_pos rfl]

/-- The generative fallback of the Default branch. -/
theorem defaultBranch_fallback {env : Env} {scfg : ServiceConfig}
    {bcfg : BusinessSettings} {cusRaw cus msg : String}
    (hn : find_template env.templateTable scfg.businessID scfg.wa_id = none)
    (hf : pyTruthy (find_knowledge env.knowledgeTable scfg.businessID msg scfg.role).1 = false) :
    defaultBranch env scfg bcfg cusRaw cus msg =
      ([Event.claudeCall bcfg.claudeModel,
        Event.sendText cusRaw (pyStrip env.claudeContent),
        Event.recordHistory scfg.businessID scfg.wa_id cus "fallback"
          ("C:" ++ msg ++ "|B:" ++ pyStrip env.claudeContent)] ++
       (if bookingDetected (pyStrip env.claudeContent) then
          [Event.recordSales scfg.businessID scfg.wa_id cus "Unknown" "TBD" "Pending"]
        else []),
       Except.ok ⟨"ok", 200⟩) := by
  unfold defaultBranch
  rw [hn, hf, if_neg (by decide)]

/-- Strict character order transfers to code points. -/
theorem char_toNat_lt_of_lt {a c : Char} (h : a < c) : a.toNat < c.toNat := by
  rw [Char.lt_def, UInt32.lt_def, BitVec.lt_def] at h
  exact h

/-- Packing a valid code point and unpacking it is the identity. -/
theorem toNat_ofNat_valid {n : Nat} (h : n.isValidChar) : (Char.ofNat n).toNat = n := by
  unfold Char.ofNat
  rw [dif_pos h]
  rfl

/-- Characters above 'z' (in particular CJK ideographs) are fixed by ASCII
lowercasing. -/
theorem pyLowerChar_fix_of_big {c : Char} (hc : 'z' < c) : pyLowerChar c = c := by
  have h2 : 122 < c.toNat := char_toNat_lt_of_lt hc
  unfold pyLowerChar Char.toLower
  dsimp only []
  rw [if_neg]
  omega

/-- ASCII lowercasing cannot produce a character above 'z'. -/
theorem pyLowerChar_eq_of_big {c : Char} (hc : 'z' < c) {a : Char}
    (h : pyLowerChar a = c) : a = c := by
  have h2 : 122 < c.toNat := char_toNat_lt_of_lt hc
  unfold pyLowerChar Char.toLower at h
  dsimp only [] at h
  split at h
  · rename_i hcond
    exfalso
    have hv : (a.toNat + 32).isValidChar := Or.inl (by omega)
    have h1 : (Char.ofNat (a.toNat + 32)).toNat = a.toNat + 32 := toNat_ofNat_valid hv
    rw [h] at h1
    omega
  · exact h

/-- Boolean-equality form of the two lemmas above. -/
theorem beq_pyLowerChar_of_big {c : Char} (hc : 'z' < c) (a : Char) :
    (c == pyLowerChar a) = (c == a) := by
  rw [beq_eq_beq]
  constructor
  · intro h
    exact (pyLowerChar_eq_of_big hc h.symm).symm
  · intro h
    subst h
    rw [pyLowerChar_fix_of_big hc]

/-- A needle of above-'z' characters matches at the head of a lowered list
exactly when it matches at the head of the original list. -/
theorem matchHead_map_pyLower :
    ∀ needle : List Char, (∀ c ∈ needle, 'z' < c) →
      ∀ l : List Char, matchHead needle (l.map pyLowerChar) = matchHead needle l := by
  intro needle
  induction needle with
  | nil => intro _ l; rfl
  | cons n ns ih =>
    intro hn l
    cases l with
    | nil => rfl
    | cons a t =>
      simp only [List.map_cons, matchHead]
      rw [beq_pyLowerChar_of_big (hn n (List.mem_cons_self n ns)) a,
          ih (fun c hc => hn c (List.mem_cons_of_mem n hc)) t]

/-- A needle of above-'z' characters occurs in a lowered list exactly when
it occurs in the original list. -/
theorem charsContains_map_pyLower (needle : List Char) (hn : ∀ c ∈ needle, 'z' < c) :
    ∀ l : List Char, charsContains (l.map pyLowerChar) needle = charsContains l needle := by
  intro l
  induction l with
  | nil => rfl
  | cons a t ih =>
    simp only [List.map_cons, charsContains]
    rw [ih]
    have h := matchHead_map_pyLower needle hn (a :: t)
    simp only [List.map_cons] at h
    rw [h]

/-- The source's booking test (which checks "预约" against the raw reply)
agrees with the claim's fully case-insensitive keyword test, because CJK
characters are unaffected by lowercasing. -/
theorem bookingDetected_eq_keywordHit (r : String) :
    bookingDetected r = keywordHit r := by
  unfold bookingDetected keywordHit
  congr 1
  unfold pyIn pyLower
  exact (charsContains_map_pyLower ("预约".data) (by decide) r.data).symm

/-- Splitting never yields the empty group list. -/
theorem splitOnChar_ne_nil (sep : Char) : ∀ l : List Char, splitOnChar sep l ≠ [] := by
  intro l
  cases l with
  | nil => simp [splitOnChar]
  | cons c rest =>
    simp only [splitOnChar]
    split
    · simp
    · split <;> simp

/-- A list free of the separator splits into a single group. -/
theorem splitOnChar_not_mem {sep : Char} :
    ∀ l : List Char, sep ∉ l → splitOnChar sep l = [l] := by
  intro l
  induction l with
  | nil => intro _; rfl
  | cons c rest ih =>
    intro h
    have hc : ¬c = sep := fun he => h (he ▸ List.mem_cons_self c rest)
    simp only [splitOnChar]
    rw [ih (fun hm => h (List.mem_cons_of_mem c hm))]
    simp [hc]

/-- Splitting at the first separator occurrence. -/
theorem splitOnChar_first {sep : Char} :
    ∀ a b : List Char, sep ∉ a →
      splitOnChar sep (a ++ sep :: b) = a :: splitOnChar sep b := by
  intro a
  induction a with
  | nil =>
    intro b _
    cases hh : splitOnChar sep b with
    | nil => exact absurd hh (splitOnChar_ne_nil sep b)
    | cons g gs =>
      simp only [List.nil_append, splitOnChar, hh]
      simp
  | cons c a' ih =>
    intro b h
    have hc : ¬c = sep := fun he => h (he ▸ List.mem_cons_self c a')
    simp only [List.cons_append, splitOnChar, List.append_eq]
    rw [ih b (fun hm => h (List.mem_cons_of_mem c hm))]
    simp [hc]

/-- Members of a dropWhile suffix are members of the original list. -/
theorem mem_of_mem_dropWhile {p : Char → Bool} {a : Char} :
    ∀ {l : List Char}, a ∈ l.dropWhile p → a ∈ l := by
  intro l
  induction l with
  | nil => intro h; simp at h
  | cons b t ih =>
    intro h
    rw [List.dropWhile_cons] at h
    split at h
    · exact List.mem_cons_of_mem b (ih h)
    · exact h

/-- Stripping whitespace removes no other character. -/
theorem mem_of_mem_stripChars {c : Char} {l : List Char}
    (h : c ∈ stripChars l) : c ∈ l := by
  unfold stripChars at h
  have h1 := List.mem_reverse.mp h
  have h2 := mem_of_mem_dropWhile h1
  have h3 := List.mem_reverse.mp h2
  exact mem_of_mem_dropWhile h3

/-- dropWhile never lengthens a list. -/
theorem length_dropWhile_le_own {p : Char → Bool} :
    ∀ l : List Char, (l.dropWhile p).length ≤ l.length := by
  intro l
  induction l with
  | nil => simp
  | cons b t ih =>
    rw [List.dropWhile_cons]
    split
    · exact Nat.le_trans ih (Nat.le_succ _)
    · exact Nat.le_refl _

/-- The code's `lstrip("+")` agrees with the spec's
strip-all-leading-non-digits rule exactly when the remainder after
`'+'`-stripping is empty or starts with a digit. -/
theorem dropPlus_eq_dropNonDigit_iff :
    ∀ l : List Char,
      (l.dropWhile (· == '+') = l.dropWhile (fun c => !c.isDigit)) ↔
        (match l.dropWhile (· == '+') with
         | [] => True
         | c :: _ => c.isDigit = true) := by
  intro l
  induction l with
  | nil => simp
  | cons c t ih =>
    by_cases hc : c = '+'
    · subst hc
      rw [List.dropWhile_cons, List.dropWhile_cons,
          if_pos (by decide), if_pos (by decide)]
      exact ih
    · have h1 : ¬((c == '+') = true) := by simp [hc]
      rw [List.dropWhile_cons, List.dropWhile_cons, if_neg h1]
      by_cases hd : c.isDigit = true
      · rw [if_neg (by simp [hd])]
        simp [hd]
      · rw [if_pos (by simp [hd])]
        constructor
        · intro h
          have hlen := congrArg List.length h
          simp only [List.length_cons] at hlen
          have hle := length_dropWhile_le_own (p := fun c => !c.isDigit) t
          omega
        · intro h
          simp only [] at h
          exact absurd h hd

/-- A service config row used by the concrete test environments. -/
def cfgRow0 : ConfigRow := ⟨"60123", "WA1", ["B1"], "KEY", none⟩

/-- A business config row used by the concrete test environments. -/
def bizRow0 : BusinessRow := ⟨"B1", none, none, none⟩

/-- A template row carrying a body, an image url and a trigger word. -/
def tplRow0 : TemplateRow := ⟨"B1", "WA1", ⟨some "Hi there", some "http://img", some "price"⟩⟩

/-- A knowledge row with no title and no scripts. -/
def kRowWild : KnowledgeRow := ⟨"B1", none, none, none, []⟩

/-- A knowledge row titled "refund" with a default script. -/
def kRowRefund : KnowledgeRow := ⟨"B1", some "refund", none, some "We refund within 7 days.", []⟩

/-- A knowledge row titled "refund" with a default script and an image. -/
def kRowImg : KnowledgeRow := ⟨"B1", some "refund", none, some "We refund.", ["http://img"]⟩

/-- Environment with one matching template row. -/
def envTpl : Env := ⟨[cfgRow0], [bizRow0], [tplRow0], [], "no quotes", "A reply"⟩

/-- Environment with no template and no knowledge rows (fallback runs); the
fallback reply contains the keyword "Booking". -/
def envFall : Env :=
  ⟨[cfgRow0], [bizRow0], [], [], "no quotes", " Sure, let us schedule a Booking! "⟩

/-- Environment with a knowledge row carrying an image. -/
def envKnow : Env := ⟨[cfgRow0], [bizRow0], [], [kRowImg], "no quotes", "hi"⟩

/-- A plain non-group inbound message to the configured number. -/
def dMsg : MessageData := ⟨false, "+60123", "+60111", "hello"⟩

/-- A non-group message asking about refunds. -/
def dRefund : MessageData := ⟨false, "+60123", "+60111", "refund please"⟩

/-- A group message. -/
def dGroup : MessageData := ⟨true, "+60123", "+60111", "hello"⟩

/-- A message to a number with no configuration. -/
def dUnknown : MessageData := ⟨false, "+99999", "+60111", "hello"⟩

/-- The service config resolved from `cfgRow0`. -/
def scfg0 : ServiceConfig := ⟨"WA1", "B1", "KEY", ""⟩

/-- The business settings resolved from `bizRow0`. -/
def bcfg0 : BusinessSettings := ⟨"en", "", "claude-opus-4-20250514"⟩

/-- A POST payload that is not a new inbound message. -/
def pStatus : Payload := ⟨some "message", some "status", none⟩

/-- C4: for every inbound message with isGroup = true, the handler performs
no delivery send, no generative backend call and no history write (the
event trace is empty), and the outcome is always the ignored-group
response. -/
theorem C4_group_message_ignored (env : Env) (d : MessageData)
    (hg : d.isGroup = true) :
    webhook env "POST" (msgPayload d) = ([], Except.ok ⟨"ignored_group", 200⟩) := by
  rw [webhook_post_msg]
  exact handleMessage_group hg

/-- Witness for C4 at a concrete group message. -/
theorem C4_group_message_ignored_witness :
    dGroup.isGroup = true ∧
    webhook envTpl "POST" (msgPayload dGroup) =
      ([], Except.ok ⟨"ignored_group", 200⟩) :=
  ⟨rfl, C4_group_message_ignored envTpl dGroup rfl⟩

/-- C5: for every non-group inbound message whose service number matches no
tenant configuration, the pipeline raises the not-found `ValueError` and
performs zero delivery sends and zero history writes (empty trace). -/
theorem C5_unknown_service_number_raises (env : Env) (d : MessageData)
    (hg : d.isGroup = false)
    (hnone : env.configTable.filter (·.whatsappNumber == pyLstripPlus d.toNumber) = []) :
    webhook env "POST" (msgPayload d) =
      ([], Except.error (PyErr.valueError
        ("No WhatsappConfig for " ++ pyLstripPlus d.toNumber))) := by
  rw [webhook_post_msg]
  apply handleMessage_resolveFail hg
  unfold resolveTenant fetch_service_config
  rw [hnone]

/-- Witness for C5 at a concrete unknown number. -/
theorem C5_unknown_service_number_raises_witness :
    envTpl.configTable.filter (·.whatsappNumber == pyLstripPlus dUnknown.toNumber) = [] ∧
    webhook envTpl "POST" (msgPayload dUnknown) =
      ([], Except.error (PyErr.valueError
        ("No WhatsappConfig for " ++ pyLstripPlus dUnknown.toNumber))) :=
  ⟨by decide, C5_unknown_service_number_raises envTpl dUnknown rfl (by decide)⟩

/-- C9: for every POST whose JSON body is not an `object = "message"` /
`event = "message:in:new"` payload, the handler short-circuits to the
`unrecognized_payload` outcome with no side effects and without raising.
The deciding branch lies past the truncation point of src/uniaiv1.py and is
modelled from the spec. -/
theorem C9_unrecognized_payload_ignored (env : Env) (p : Payload)
    (h : ¬(p.object? = some "message" ∧ p.event? = some "message:in:new")) :
    webhook env "POST" p = ([], Except.ok ⟨"unrecognized_payload", 200⟩) := by
  unfold webhook
  rw [if_neg (by decide), if_neg h]

/-- Witness for C9 at a concrete status-callback payload. -/
theorem C9_unrecognized_payload_ignored_witness :
    ¬(pStatus.object? = some "message" ∧ pStatus.event? = some "message:in:new") ∧
    webhook envTpl "POST" pStatus = ([], Except.ok ⟨"unrecognized_payload", 200⟩) :=
  ⟨by decide, C9_unrecognized_payload_ignored envTpl pStatus (by decide)⟩

/-- C2 fails on the code: with one template row whose trigger "price" does
not occur in the message "hello", the spec-side matcher returns none but
`find_template` returns the row anyway. -/
theorem C2_counterexample : ¬ claimC2at [tplRow0] "B1" "WA1" "hello" := by
  unfold claimC2at
  decide

/-- C2 amended: `find_template` returns the fields of the first fetched row
scoped to the tenant, regardless of the message body and of any trigger
token; it returns none only when no row is scoped. -/
theorem C2_amended_first_row_unconditional :
    (∀ (rows : List TemplateRow) (biz wa : String) (r : TemplateRow)
        (rest : List TemplateRow),
      rows.filter (fun x => x.businessID == biz && x.whatsAppConfig == wa) = r :: rest →
      find_template rows biz wa = some r.fields)
    ∧ (∀ (rows : List TemplateRow) (biz wa : String),
      rows.filter (fun x => x.businessID == biz && x.whatsAppConfig == wa) = [] →
      find_template rows biz wa = none) := by
  constructor
  · intro rows biz wa r rest h
    unfold find_template
    rw [h]
    rfl
  · intro rows biz wa h
    unfold find_template
    rw [h]
    rfl

/-- Witness for the amended C2 at a concrete row list. -/
theorem C2_amended_witness :
    [tplRow0].filter (fun x => x.businessID == "B1" && x.whatsAppConfig == "WA1") =
      tplRow0 :: [] ∧
    find_template [tplRow0] "B1" "WA1" = some tplRow0.fields :=
  ⟨by decide,
   C2_amended_first_row_unconditional.1 [tplRow0] "B1" "WA1" tplRow0 [] (by decide)⟩

/-- C3 fails on the code: a titleless row is a wildcard match (the empty
string is a substring of everything) and scanning stops there even though
its scripts are absent, so the later "refund" row with a usable default
script is never reached. -/
theorem C3_counterexample :
    ¬ claimC3at [kRowWild, kRowRefund] "B1" "refund please" "agent" := by
  unfold claimC3at
  decide

/-- C3 amended: `find_knowledge` returns, for the first scoped entry whose
(possibly empty, empty matching everything) title occurs case-insensitively
in the message, the pair (roleScripts[role] or defaultScript, first image),
even when that script is absent or empty — scanning never continues past
the first title match — and returns (none, none) only when no scoped title
matches. -/
theorem C3_amended_first_title_match :
    (∀ (rows : List KnowledgeRow) (biz msg role : String) (pre : List KnowledgeRow)
        (r : KnowledgeRow) (post : List KnowledgeRow),
      rows.filter (·.businessID == biz) = pre ++ r :: post →
      (∀ r' ∈ pre, titleMatches r' msg = false) →
      titleMatches r msg = true →
      find_knowledge rows biz msg role =
        (pyOrOpt (pyDictGet role (r.roleScripts.getD [])) r.defaultScript,
         r.imageURLs.head?))
    ∧ (∀ (rows : List KnowledgeRow) (biz msg role : String),
      (∀ r ∈ rows.filter (·.businessID == biz), titleMatches r msg = false) →
      find_knowledge rows biz msg role = (none, none)) := by
  constructor
  · intro rows biz msg role pre r post hsplit hpre hr
    unfold find_knowledge
    rw [hsplit]
    clear hsplit
    unfold titleMatches at hpre hr
    induction pre with
    | nil =>
      simp only [List.nil_append, knowledgeScan]
      rw [hr, if_pos rfl]
    | cons q qs ih =>
      simp only [List.cons_append, knowledgeScan]
      rw [hpre q (List.mem_cons_self q qs), if_neg (by decide)]
      exact ih (fun r' hm => hpre r' (List.mem_cons_of_mem q hm))
  · intro rows biz msg role hall
    unfold find_knowledge
    unfold titleMatches at hall
    revert hall
    generalize rows.filter (·.businessID == biz) = l
    intro hall
    induction l with
    | nil => rfl
    | cons q qs ih =>
      simp only [knowledgeScan]
      rw [hall q (List.mem_cons_self q qs), if_neg (by decide)]
      exact ih (fun r' hm => hall r' (List.mem_cons_of_mem q hm))

/-- Witness for the amended C3: the titleless wildcard row is the first
title match and its absent scripts are returned as (none, none). -/
theorem C3_amended_witness :
    titleMatches kRowWild "refund please" = true ∧
    find_knowledge [kRowWild, kRowRefund] "B1" "refund please" "agent" = (none, none) :=
  ⟨by decide,
   C3_amended_first_title_match.1 [kRowWild, kRowRefund] "B1" "refund please" "agent"
     [] kRowWild [kRowRefund] (by decide) (by intro r' h; simp at h) (by decide)⟩

/-- C8 fails on the code: the webhook normalizes with `lstrip("+")` only,
so a service number with a non-`'+'` non-digit prefix is not normalized the
way the spec prescribes. -/
theorem C8_counterexample : ¬ claimC8at "wa:+60123456789" := by
  unfold claimC8at
  decide

/-- C8 amended: tenant resolution strips only the leading `'+'` characters
before the exact-match lookup; this agrees with the spec's
strip-all-leading-non-digits rule exactly when the remainder after
`'+'`-stripping is empty or starts with a digit. -/
theorem C8_amended_lstrip_plus_only (s : String) :
    pyLstripPlus s = normalizeServiceNumber_spec s ↔
      (match s.data.dropWhile (· == '+') with
       | [] => True
       | c :: _ => c.isDigit = true) := by
  unfold pyLstripPlus normalizeServiceNumber_spec
  rw [String.ext_iff]
  exact dropPlus_eq_dropNonDigit_iff s.data

/-- C10 fails on the code: a router response with exactly one double quote
(fewer than two) makes `select_tool` return the text after the quote, not
"Default". -/
theorem C10_counterexample : ¬ claimC10at "x\"Tool" := by
  intro h
  have h2 := h (by decide)
  exact absurd h2 (by decide)

/-- C10 amended: with no double quote in the router text, `select_tool`
returns "Default" (the IndexError path); with exactly one double quote it
returns the text after that quote. -/
theorem C10_amended_quote_parse :
    (∀ content : String, quoteCount content = 0 → select_tool content = "Default")
    ∧ (∀ (content : String) (a b : List Char),
        (pyStrip content).data = a ++ '"' :: b → '"' ∉ a → '"' ∉ b →
        select_tool content = ⟨b⟩) := by
  constructor
  · intro content h
    have hnm : '"' ∉ (pyStrip content).data := by
      intro hm
      exact absurd (mem_of_mem_stripChars hm) (List.count_eq_zero.mp h)
    unfold select_tool
    rw [splitOnChar_not_mem _ hnm]
  · intro content a b hdata ha hb
    unfold select_tool
    rw [hdata, splitOnChar_first a b ha, splitOnChar_not_mem b hb]

/-- Witness for the amended C10 at a quoteless router response. -/
theorem C10_amended_witness :
    quoteCount "no quotes" = 0 ∧ select_tool "no quotes" = "Default" :=
  ⟨by decide, C10_amended_quote_parse.1 "no quotes" (by decide)⟩

/-- C1 fails on the code: when a template matches, the claim requires zero
generative round trips, but the tool-router call (src/uniaiv1.py:259) is
itself a `call_claude` round trip made before the template stage runs. -/
theorem C1_counterexample : ¬ claimC1at envTpl dMsg := by
  intro h
  have h4 := (h scfg0 bcfg0 rfl rfl).2.2.2.1 (Or.inl (by decide))
  exact absurd h4 (by decide)

/-- C1 amended: staged evaluation holds for messages the router sends to
the Default tool, with the unconditional router call as the only generative
round trip unless both deterministic stages fail, in which case exactly one
further (fallback) round trip occurs. -/
theorem C1_amended_router_then_staged (env : Env) (d : MessageData)
    (scfg : ServiceConfig) (bcfg : BusinessSettings)
    (hg : d.isGroup = false)
    (hres : resolveTenant env d = Except.ok (scfg, bcfg))
    (htool : select_tool env.routerContent = "Default") :
    ((find_template env.templateTable scfg.businessID scfg.wa_id).isSome = true →
      (webhook env "POST" (msgPayload d)).2 = Except.ok ⟨"template_sent", 200⟩ ∧
      claudeCalls (webhook env "POST" (msgPayload d)).1 = 1)
    ∧ (find_template env.templateTable scfg.businessID scfg.wa_id = none →
      pyTruthy (find_knowledge env.knowledgeTable scfg.businessID
        (pyStrip d.body) scfg.role).1 = true →
      (webhook env "POST" (msgPayload d)).2 = Except.ok ⟨"knowledge_sent", 200⟩ ∧
      claudeCalls (webhook env "POST" (msgPayload d)).1 = 1)
    ∧ (find_template env.templateTable scfg.businessID scfg.wa_id = none →
      pyTruthy (find_knowledge env.knowledgeTable scfg.businessID
        (pyStrip d.body) scfg.role).1 = false →
      (webhook env "POST" (msgPayload d)).2 = Except.ok ⟨"ok", 200⟩ ∧
      claudeCalls (webhook env "POST" (msgPayload d)).1 = 2) := by
  have hw : webhook env "POST" (msgPayload d) =
      withRouter (defaultBranch env scfg bcfg d.fromNumber
        (pyLstripPlus d.fromNumber) (pyStrip d.body)) := by
    rw [webhook_post_msg, handleMessage_resolved hg hres, htool, toolDispatch_default]
  refine ⟨?_, ?_, ?_⟩
  · intro hsome
    obtain ⟨tpl, htpl⟩ := Option.isSome_iff_exists.mp hsome
    rw [hw, defaultBranch_template htpl]
    exact ⟨rfl, rfl⟩
  · intro hn ht
    rw [hw, defaultBranch_knowledge hn ht]
    refine ⟨rfl, ?_⟩
    cases (find_knowledge env.knowledgeTable scfg.businessID
        (pyStrip d.body) scfg.role).2 with
    | none => rfl
    | some u => rfl
  · intro hn hf
    rw [hw, defaultBranch_fallback hn hf]
    refine ⟨rfl, ?_⟩
    cases bookingDetected (pyStrip env.claudeContent) with
    | false => rfl
    | true => rfl

/-- Witness for the amended C1 in the both-stages-fail case. -/
theorem C1_amended_witness :
    find_template envFall.templateTable scfg0.businessID scfg0.wa_id = none ∧
    ((webhook envFall "POST" (msgPayload dMsg)).2 = Except.ok ⟨"ok", 200⟩ ∧
     claudeCalls (webhook envFall "POST" (msgPayload dMsg)).1 = 2) :=
  ⟨rfl,
   (C1_amended_router_then_staged envFall dMsg scfg0 bcfg0 rfl rfl rfl).2.2 rfl rfl⟩

/-- C6: in a fallback run, a SalesLead is recorded iff the generated reply
contains a booking keyword ("booking" or "预约") case-insensitively, and
every recorded lead has customerName "Unknown", serviceBooked "TBD" and
status "Pending".  Detection is a pure function of the reply text, hence
deterministic. -/
theorem C6_sales_lead_iff_booking_keyword (env : Env) (d : MessageData)
    (scfg : ServiceConfig) (bcfg : BusinessSettings)
    (hg : d.isGroup = false)
    (hres : resolveTenant env d = Except.ok (scfg, bcfg))
    (htool : select_tool env.routerContent = "Default")
    (hn : find_template env.templateTable scfg.businessID scfg.wa_id = none)
    (hf : pyTruthy (find_knowledge env.knowledgeTable scfg.businessID
      (pyStrip d.body) scfg.role).1 = false) :
    (Event.recordSales scfg.businessID scfg.wa_id (pyLstripPlus d.fromNumber)
        "Unknown" "TBD" "Pending" ∈ (webhook env "POST" (msgPayload d)).1 ↔
      keywordHit (pyStrip env.claudeContent) = true)
    ∧ (∀ b w p n s st,
      Event.recordSales b w p n s st ∈ (webhook env "POST" (msgPayload d)).1 →
      n = "Unknown" ∧ s = "TBD" ∧ st = "Pending") := by
  have hw : webhook env "POST" (msgPayload d) =
      withRouter (defaultBranch env scfg bcfg d.fromNumber
        (pyLstripPlus d.fromNumber) (pyStrip d.body)) := by
    rw [webhook_post_msg, handleMessage_resolved hg hres, htool, toolDispatch_default]
  rw [hw, defaultBranch_fallback hn hf, ← bookingDetected_eq_keywordHit]
  constructor
  · cases hbk : bookingDetected (pyStrip env.claudeContent) with
    | true => simp [withRouter]
    | false => simp [withRouter]
  · intro b w p n s st hmem
    cases hbk : bookingDetected (pyStrip env.claudeContent) with
    | true =>
      rw [hbk] at hmem
      simp [withRouter] at hmem
      exact ⟨hmem.2.2.2.1, hmem.2.2.2.2.1, hmem.2.2.2.2.2⟩
    | false =>
      rw [hbk] at hmem
      simp [withRouter] at hmem

/-- Witness for C6: the concrete fallback reply contains "Booking", and the
lead is recorded. -/
theorem C6_sales_lead_witness :
    pyTruthy (find_knowledge envFall.knowledgeTable scfg0.businessID
      (pyStrip dMsg.body) scfg0.role).1 = false ∧
    (Event.recordSales scfg0.businessID scfg0.wa_id (pyLstripPlus dMsg.fromNumber)
        "Unknown" "TBD" "Pending" ∈ (webhook envFall "POST" (msgPayload dMsg)).1 ↔
      keywordHit (pyStrip envFall.claudeContent) = true) :=
  ⟨rfl,
   (C6_sales_lead_iff_booking_keyword envFall dMsg scfg0 bcfg0 rfl rfl rfl rfl rfl).1⟩

/-- C7 fails on the code: the template stage sends no image even when the
matched row carries one (src/uniaiv1.py:265-269 reads only TemplateBody). -/
theorem C7_counterexample : ¬ claimC7at envTpl dMsg := by
  intro h
  have h2 := (h scfg0 bcfg0 rfl rfl).1 tplRow0.fields (by decide) (by decide)
  exact absurd h2 (by decide)

/-- C7 amended: the template stage never sends an image, even when the
matched row carries one; in the knowledge stage, when the matched entry
carries an image, the image send precedes the text send. -/
theorem C7_amended_image_order (env : Env) (d : MessageData)
    (scfg : ServiceConfig) (bcfg : BusinessSettings)
    (hg : d.isGroup = false)
    (hres : resolveTenant env d = Except.ok (scfg, bcfg))
    (htool : select_tool env.routerContent = "Default") :
    (∀ tpl, find_template env.templateTable scfg.businessID scfg.wa_id = some tpl →
      (webhook env "POST" (msgPayload d)).1.countP isImageEvent = 0)
    ∧ (∀ s u, find_template env.templateTable scfg.businessID scfg.wa_id = none →
      find_knowledge env.knowledgeTable scfg.businessID (pyStrip d.body) scfg.role =
        (some s, some u) →
      s ≠ "" →
      imageThenText (webhook env "POST" (msgPayload d)).1 = true) := by
  have hw : webhook env "POST" (msgPayload d) =
      withRouter (defaultBranch env scfg bcfg d.fromNumber
        (pyLstripPlus d.fromNumber) (pyStrip d.body)) := by
    rw [webhook_post_msg, handleMessage_resolved hg hres, htool, toolDispatch_default]
  constructor
  · intro tpl htpl
    rw [hw, defaultBranch_template htpl]
    rfl
  · intro s u hn hk hs
    have ht : pyTruthy (find_knowledge env.knowledgeTable scfg.businessID
        (pyStrip d.body) scfg.role).1 = true := by
      rw [hk]
      simp [pyTruthy, hs]
    rw [hw, defaultBranch_knowledge hn ht, hk]
    rfl

/-- Witness for the amended C7: the knowledge row with an image yields an
image send before the text send. -/
theorem C7_amended_witness :
    find_knowledge envKnow.knowledgeTable scfg0.businessID
      (pyStrip dRefund.body) scfg0.role = (some "We refund.", some "http://img") ∧
    imageThenText (webhook envKnow "POST" (msgPayload dRefund)).1 = true :=
  ⟨by decide,
   (C7_amended_image_order envKnow dRefund scfg0 bcfg0 rfl rfl rfl).2
     "We refund." "http://img" rfl (by decide) (by decide)⟩
